import Mathlib

/-!
Verification development for the oci-bot repository (package `bot`,
together with `config`, `ippure` and `oci`). The definitions below are a
shallow embedding of the Go source: the auto-apply policy matcher
(`checkIPMatch`), the backoff-interval sampler (`waitInterval`), the
auto-apply wizard (`startAutoIPWizard`, `handleAutoIPCallback`,
`handleIntervalInput`, `showConfirmation`) and one iteration of the
background controller loop (`runAutoApplyTask`). Machine integers are
modelled as `Int` with the `strconv.Atoi` 64-bit range check made
explicit; external calls (OCI client, ippure, Telegram, math/rand) are
supplied through explicit oracle records, and everything the code sends
or mutates is returned as a value.
-/

namespace OciBot

/-! ### Model of Go `strconv.Atoi` -/

/-- Value of a decimal digit character. -/
def digitVal (c : Char) : Nat := c.toNat - '0'.toNat

/-- Parse a non-empty all-digit character list as a natural number
(the digit part of Go `strconv.ParseInt` base 10). -/
def digitsVal? (cs : List Char) : Option Nat :=
  if cs.isEmpty then none
  else cs.foldl (fun acc c =>
    match acc with
    | none => none
    | some n => if c.isDigit then some (n * 10 + digitVal c) else none) (some 0)

/-- Largest value of Go `int` (64-bit): 2^63 - 1. -/
def int64Max : Int := 9223372036854775807

/-- Model of Go `strconv.Atoi`: optional sign, then one or more decimal
digits, with the 64-bit range check; `none` models a non-nil error. -/
def atoi? (s : String) : Option Int :=
  match s.data with
  | '+' :: rest =>
      match digitsVal? rest with
      | some n => if (n : Int) ≤ int64Max then some (n : Int) else none
      | none => none
  | '-' :: rest =>
      match digitsVal? rest with
      | some n => if (n : Int) ≤ int64Max + 1 then some (-(n : Int)) else none
      | none => none
  | cs =>
      match digitsVal? cs with
      | some n => if (n : Int) ≤ int64Max then some (n : Int) else none
      | none => none

/-! ### Models of the Go `strings` helpers used by the bot -/

/-- Go `unicode.IsSpace` on the characters it recognises in Latin-1. -/
def isGoSpace (c : Char) : Bool :=
  c = ' ' || c = '\t' || c = '\n' || c = '\x0B' || c = '\x0C' || c = '\r' ||
  c = '\u0085' || c = '\u00A0'

/-- Model of Go `strings.TrimSpace`. -/
def trimSpace (s : String) : String :=
  String.mk (((s.data.dropWhile isGoSpace).reverse.dropWhile isGoSpace).reverse)

/-- Model of Go `strings.TrimSuffix(s, "%")`: drop a final `%` if the
string ends with one, else return it unchanged. -/
def trimPercent (s : String) : String :=
  match s.data.getLast? with
  | some '%' => String.mk s.data.dropLast
  | _ => s

/-- Model of Go `strings.Split(s, sep)` for the one-character separator
used by the bot: split at every occurrence of `sep`, keeping empty
fields (`"a--b"` gives `["a", "", "b"]`, `"a-"` gives `["a", ""]`). -/
def splitOnChar (sep : Char) : List Char → List (List Char)
  | [] => [[]]
  | c :: rest =>
      match splitOnChar sep rest with
      | [] => [[]]
      | g :: gs => if c = sep then [] :: g :: gs else (c :: g) :: gs

/-- `strings.Split(text, "-")` as a `String`-level operation. -/
def splitDash (s : String) : List String :=
  (splitOnChar '-' s.data).map String.mk

/-- Does `needle` start `hay`? (helper for the substring check). -/
def listStarts : List Char → List Char → Bool
  | [], _ => true
  | _ :: _, [] => false
  | a :: as, b :: bs => a = b && listStarts as bs

/-- Does `ns` occur anywhere in the list? (helper for `strContainsSub`). -/
def listContainsSub (ns : List Char) : List Char → Bool
  | [] => listStarts ns []
  | c :: t => listStarts ns (c :: t) || listContainsSub ns t

/-- Model of Go `strings.Contains` (substring containment). -/
def strContainsSub (hay needle : String) : Bool :=
  listContainsSub needle.data hay.data

/-! ### Data model (structs of package `bot` and `ippure.IPInfo`) -/

/-- `ippure.IPInfo`: the classification oracle's verdict for an address. -/
structure IPInfo where
  IPAddress : String
  PurityScore : String
  PurityLevel : String
  IPType : String
  IsNative : String
  deriving DecidableEq, Repr

/-- `bot.IPPurityCache`: cached purity info for a checked IP. -/
structure IPPurityCache where
  PurityScore : String
  IPType : String
  IsNative : String
  deriving DecidableEq, Repr

/-- `oci.PublicIP` as used by the bot: id and address of a reserved IP. -/
structure PublicIP where
  ID : String
  IPAddress : String
  deriving DecidableEq, Repr

/-- `bot.AutoApplyConfig`: the auto-apply task settings. The Go
`Cancel context.CancelFunc` field is modelled by the boolean
`CancelSet` recording whether a cancellation handle is installed. -/
structure AutoApplyConfig where
  AccountName : String
  PurityThreshold : Int
  NativeRequired : String
  MatchMode : String
  IntervalMin : Int
  IntervalMax : Int
  Active : Bool
  CancelSet : Bool
  ChatID : Int
  deriving DecidableEq, Repr

/-- `bot.AutoApplyWizard`: the wizard setup state. -/
structure AutoApplyWizard where
  Step : Int
  AccountName : String
  PurityThreshold : Int
  NativeRequired : String
  MatchMode : String
  ChatID : Int
  deriving DecidableEq, Repr

/-- The session-relevant fields of `bot.Bot` (those guarded by `b.mu`):
the configured client names, the current client, the purity cache, and
the auto-apply task and wizard slots. -/
structure BotState where
  clients : List String
  currentClient : String
  purityCache : List (String × IPPurityCache)
  autoApply : Option AutoApplyConfig
  autoWizard : Option AutoApplyWizard
  deriving DecidableEq, Repr

/-- Externally visible actions the bot performs, in order. `crashed`
marks a Go nil-pointer dereference. -/
inductive Effect where
  | reply (chatID : Int) (text : String)
  | deleteIP (id : String)
  | sleep (seconds : Int)
  | spawnTask
  | crashed
  deriving DecidableEq, Repr

/-! ### `checkIPMatch` (README.md source, lines 1272-1288) -/

/-- The purity-score parse inside `checkIPMatch`: strip a trailing `%`,
`strconv.Atoi`, and default to 100 on a parse error. -/
def parsePurity (scoreStr : String) : Int :=
  match atoi? (trimPercent scoreStr) with
  | some n => n
  | none => 100

/-- `checkIPMatch`: does the classified IP meet the configured criteria? -/
def checkIPMatch (info : IPInfo) (config : AutoApplyConfig) : Bool :=
  let purity := parsePurity info.PurityScore
  let purityOK := decide (purity ≤ config.PurityThreshold)
  let nativeOK := config.NativeRequired == "any" || info.IsNative == config.NativeRequired
  if config.MatchMode == "all" then
    purityOK && nativeOK
  else
    purityOK || nativeOK

/-! ### `waitInterval` (README.md source, lines 1291-1304) -/

/-- Model of Go `rand.Intn`: `none` models the panic on a non-positive
argument; otherwise the pseudo-random result, reduced from an abstract
seed, lies in `[0, n)`. -/
def randIntn (seed : Nat) (n : Int) : Option Int :=
  if 0 < n then some ((seed % n.toNat : Nat) : Int) else none

/-- The interval value computed by `waitInterval`: `IntervalMin`, plus a
random offset sampled by `rand.Intn(IntervalMax-IntervalMin+1)` when
`IntervalMax > IntervalMin`. -/
def waitIntervalValue (config : AutoApplyConfig) (seed : Nat) : Option Int :=
  if config.IntervalMax > config.IntervalMin then
    (randIntn seed (config.IntervalMax - config.IntervalMin + 1)).map
      (fun r => config.IntervalMin + r)
  else
    some config.IntervalMin

/-! ### Wizard entry point `startAutoIPWizard` (lines 722-752) -/

/-- The wizard installed by `/autoip`: `&AutoApplyWizard{Step: 1,
ChatID: chatID}`; the unset Go struct fields take zero values. -/
def newWizard (chatID : Int) : AutoApplyWizard :=
  { Step := 1
    AccountName := ""
    PurityThreshold := 0
    NativeRequired := ""
    MatchMode := ""
    ChatID := chatID }

/-- `startAutoIPWizard` (the `/autoip` command): reject if an auto-apply
task is active (`b.autoApply != nil && b.autoApply.Active`), otherwise
install a fresh wizard at step 1 and show the account keyboard. -/
def startAutoIPWizard (s : BotState) (chatID : Int) : BotState × List Effect :=
  if (match s.autoApply with | some config => config.Active | none => false) then
    (s, [Effect.reply chatID "⚠️ 自动刷IP任务正在运行中\n使用 /stopauto 停止当前任务"])
  else
    ({ s with autoWizard := some (newWizard chatID) },
     [Effect.reply chatID "🔄 *自动刷IP配置* (1/5)\n\n请选择账号:"])

/-! ### Task start helpers (lines 1012-1145) -/

/-- External results consumed by the confirm / purge paths:
the `ListReservedIPs` outcome, per-deletion `DeleteReservedIP` errors,
and `rand` seeds for the inter-deletion waits. -/
structure ExtOracle where
  listResult : Except String (List PublicIP)
  deleteErrors : List (Option String)
  seeds : List Nat
  deriving Repr

/-- `doStartAutoApply`: mark the config active with a cancellation
handle installed, clear the wizard, announce the start and spawn the
background task. -/
def doStartAutoApply (s : BotState) (chatID : Int) (config : AutoApplyConfig) :
    BotState × List Effect :=
  let config' := { config with Active := true, CancelSet := true, ChatID := chatID }
  ({ s with autoApply := some config', autoWizard := none },
   [Effect.reply chatID
      ("🚀 *自动刷IP已启动*\n\n账号: " ++ config.AccountName ++ "\n使用 /stopauto 停止"),
    Effect.spawnTask])

/-- The `• \x60ip\x60\n` bullet list built by `startAutoApplyTask`. -/
def ipBulletList (ips : List PublicIP) : String :=
  ips.foldl (fun acc ip => acc ++ "• `" ++ ip.IPAddress ++ "`\n") ""

/-- `startAutoApplyTask` (the wizard `confirm` button): look up the
config and client, list existing IPs, and either prompt about them or
start directly. -/
def startAutoApplyTask (s : BotState) (chatID : Int) (o : ExtOracle) :
    BotState × List Effect :=
  match s.autoApply with
  | none => (s, [Effect.reply chatID "⚠️ 配置已失效，请重新使用 /autoip"])
  | some config =>
      if s.clients.contains config.AccountName then
        match o.listResult with
        | .error e =>
            let (s', effs) := doStartAutoApply s chatID config
            (s', Effect.reply chatID ("⚠️ 检查IP列表失败: " ++ e) :: effs)
        | .ok ips =>
            if ips.length > 0 then
              (s, [Effect.reply chatID
                ("⚠️ *账号 [" ++ config.AccountName ++ "] 已有 " ++ toString ips.length
                  ++ " 个IP:*\n\n" ++ ipBulletList ips ++ "\n请选择操作:")])
            else
              doStartAutoApply s chatID config
      else
        (s, [Effect.reply chatID ("❌ 账号不存在: " ++ config.AccountName)])

/-- The sequential deletion loop of `deleteAllIPsAndStart`: per-IP
progress reply, delete call, failure reply, and a jittered wait between
deletions (not after the last). -/
def deleteLoop (chatID intervalMin intervalMax : Int) (o : ExtOracle) :
    Nat → Nat → List PublicIP → List Effect
  | _, _, [] => []
  | i, total, ip :: rest =>
      let head := [Effect.reply chatID
          ("🗑 删除IP (" ++ toString (i + 1) ++ "/" ++ toString total ++ "): " ++ ip.IPAddress),
        Effect.deleteIP ip.ID]
      let failEff :=
        match (o.deleteErrors.getD i none) with
        | some e => [Effect.reply chatID ("⚠️ 删除失败: " ++ e)]
        | none => []
      let waitEff :=
        if rest.isEmpty then []
        else
          let interval :=
            if intervalMax > intervalMin then
              intervalMin + ((randIntn (o.seeds.getD i 0) (intervalMax - intervalMin + 1)).getD 0)
            else intervalMin
          [Effect.reply chatID ("⏳ 等待 " ++ toString interval ++ " 秒..."),
           Effect.sleep interval]
      head ++ failEff ++ waitEff ++ deleteLoop chatID intervalMin intervalMax o (i + 1) total rest

/-- `deleteAllIPsAndStart` (the wizard `delall` button): delete every
existing IP sequentially with jittered waits, then start auto-apply. -/
def deleteAllIPsAndStart (s : BotState) (chatID : Int) (o : ExtOracle) :
    BotState × List Effect :=
  match s.autoApply with
  | none => (s, [Effect.reply chatID "⚠️ 配置已失效，请重新使用 /autoip"])
  | some config =>
      if s.clients.contains config.AccountName then
        match o.listResult with
        | .error e => (s, [Effect.reply chatID ("❌ 获取IP列表失败: " ++ e)])
        | .ok ips =>
            let effs := deleteLoop chatID config.IntervalMin config.IntervalMax o 0 ips.length ips
            let (s', startEffs) := doStartAutoApply s chatID config
            (s', effs ++ [Effect.reply chatID "✅ 已删除所有IP，开始自动刷IP..."] ++ startEffs)
      else
        (s, [Effect.reply chatID ("❌ 账号不存在: " ++ config.AccountName)])

/-! ### Wizard callbacks `handleAutoIPCallback` (lines 754-827) -/

/-- `handleAutoIPCallback`: dispatch a `autoip:{subaction}:{value}`
button press. Rejected with a hint when no wizard exists; otherwise the
sub-action writes its policy field and sets its fixed successor step,
or triggers cancel / confirm / purge / keep-start. In the `keepstart`
branch Go dereferences `b.autoApply` without a nil check; `crashed`
records that. -/
def handleAutoIPCallback (s : BotState) (chatID : Int) (parts : List String)
    (o : ExtOracle) : BotState × List Effect :=
  match s.autoWizard with
  | none => (s, [Effect.reply chatID "⚠️ 请先使用 /autoip 开始配置"])
  | some wizard =>
      if parts.length < 3 then (s, [])
      else
        let subAction := parts.getD 1 ""
        let value := parts.getD 2 ""
        if subAction = "cancel" then
          ({ s with autoWizard := none }, [Effect.reply chatID "❌ 已取消自动刷IP配置"])
        else if subAction = "account" then
          ({ s with autoWizard := some { wizard with AccountName := value, Step := 2 } },
           [Effect.reply chatID "🔄 *自动刷IP配置* (2/5)\n\n请选择纯净度阈值 (越低越纯净):"])
        else if subAction = "purity" then
          let threshold := (atoi? value).getD 0
          ({ s with autoWizard := some { wizard with PurityThreshold := threshold, Step := 3 } },
           [Effect.reply chatID "🔄 *自动刷IP配置* (3/5)\n\n请选择IP来源要求:"])
        else if subAction = "native" then
          ({ s with autoWizard := some { wizard with NativeRequired := value, Step := 4 } },
           [Effect.reply chatID "🔄 *自动刷IP配置* (4/5)\n\n请选择匹配模式:"])
        else if subAction = "mode" then
          ({ s with autoWizard := some { wizard with MatchMode := value, Step := 5 } },
           [Effect.reply chatID
             "🔄 *自动刷IP配置* (5/5)\n\n请输入操作间隔时间 (秒):\n\n• 输入单个数字: `200` \n• 或输入范围: `200-300` (随机等待)\n\n_直接发送消息即可_"])
        else if subAction = "confirm" then
          startAutoApplyTask s chatID o
        else if subAction = "delall" then
          deleteAllIPsAndStart s chatID o
        else if subAction = "keepstart" then
          match s.autoApply with
          | none => (s, [Effect.crashed])
          | some config => doStartAutoApply s chatID config
        else
          (s, [])

/-! ### Interval input `handleIntervalInput` and `showConfirmation`
(lines 896-1010) -/

/-- The `AutoApplyConfig` literal `showConfirmation` stores in
`b.autoApply`: the wizard's policy fields plus the parsed interval;
`Active` and `Cancel` take Go zero values. -/
def configFromWizard (wizard : AutoApplyWizard) (chatID minInterval maxInterval : Int) :
    AutoApplyConfig :=
  { AccountName := wizard.AccountName
    PurityThreshold := wizard.PurityThreshold
    NativeRequired := wizard.NativeRequired
    MatchMode := wizard.MatchMode
    IntervalMin := minInterval
    IntervalMax := maxInterval
    Active := false
    CancelSet := false
    ChatID := chatID }

/-- The summary text built by `showConfirmation`. -/
def confirmText (wizard : AutoApplyWizard) (minInterval maxInterval : Int) : String :=
  let purityText :=
    if wizard.PurityThreshold ≥ 100 then "不限"
    else "<= " ++ toString wizard.PurityThreshold ++ "%"
  let nativeText := if wizard.NativeRequired = "any" then "不限" else wizard.NativeRequired
  let modeText := if wizard.MatchMode = "any" then "满足任一条件" else "满足全部条件"
  let intervalText :=
    if minInterval ≠ maxInterval then
      toString minInterval ++ "-" ++ toString maxInterval ++ "秒 (随机)"
    else toString minInterval ++ "秒"
  "✅ *确认自动刷IP配置*\n\n📍 *账号:* " ++ wizard.AccountName ++
    "\n📊 *纯净度:* " ++ purityText ++ "\n🌐 *来源:* " ++ nativeText ++
    "\n🔀 *匹配模式:* " ++ modeText ++ "\n⏱ *间隔时间:* " ++ intervalText ++
    "\n\n确认开始自动刷IP?"

/-- `showConfirmation`: store the accumulated policy plus the parsed
interval in `b.autoApply` (a fresh `AutoApplyConfig`, so `Active` and
`Cancel` take zero values) and show the confirm keyboard. -/
def showConfirmation (s : BotState) (chatID minInterval maxInterval : Int) :
    BotState × List Effect :=
  match s.autoWizard with
  | none => (s, [Effect.reply chatID "⚠️ 配置已失效，请重新使用 /autoip"])
  | some wizard =>
      ({ s with autoApply := some (configFromWizard wizard chatID minInterval maxInterval) },
       [Effect.reply chatID (confirmText wizard minInterval maxInterval)])

/-- The tail of `handleIntervalInput` once `minInterval`/`maxInterval`
are parsed (and swapped if needed): reject below the 10-second floor,
otherwise set the wizard step to 6 and show the confirmation. -/
def intervalAccept (s : BotState) (chatID minInterval maxInterval : Int) :
    BotState × List Effect :=
  if minInterval < 10 then
    (s, [Effect.reply chatID "❌ 间隔时间不能小于10秒"])
  else
    let s' :=
      match s.autoWizard with
      | some wizard => { s with autoWizard := some { wizard with Step := 6 } }
      | none => s
    showConfirmation s' chatID minInterval maxInterval

/-- `handleIntervalInput`: parse the free-text interval (`N` or `N-M`,
swapping when `N > M`; the error reply names the unparsable token) and
hand over to the floor check and confirmation. Go's
`len(parts) != 2` format check is rendered as the two-element match. -/
def handleIntervalInput (s : BotState) (chatID : Int) (text : String) :
    BotState × List Effect :=
  let text := trimSpace text
  if strContainsSub text "-" then
    match splitDash text with
    | [p0, p1] =>
        (match atoi? (trimSpace p0) with
         | none => (s, [Effect.reply chatID ("❌ 无效的数字: " ++ p0)])
         | some n =>
             match atoi? (trimSpace p1) with
             | none => (s, [Effect.reply chatID ("❌ 无效的数字: " ++ p1)])
             | some m =>
                 if n > m then intervalAccept s chatID m n
                 else intervalAccept s chatID n m)
    | _ => (s, [Effect.reply chatID "❌ 格式错误，请输入: 200 或 200-300"])
  else
    match atoi? text with
    | none => (s, [Effect.reply chatID ("❌ 无效的数字: " ++ text)])
    | some n => intervalAccept s chatID n n

/-! ### One iteration of the controller loop `runAutoApplyTask`
(lines 1167-1269) -/

/-- Results of the external calls one loop iteration can make:
cancellation status, `CreateReservedIP`, `WaitForIPReady` and
`ippure.Check` (where `none` models a non-nil error), and whether the
`DeleteReservedIP` call would fail. -/
structure AttemptOracle where
  cancelled : Bool
  createResult : Option PublicIP
  waitReadyResult : Option PublicIP
  checkResult : Option IPInfo
  deleteFails : Bool
  deriving DecidableEq, Repr

/-- How one iteration of `runAutoApplyTask` ends: return on
cancellation, return on a matching IP, or `continue` into the next
attempt. -/
inductive AttemptOutcome where
  | cancelled
  | matched
  | retry
  deriving DecidableEq, Repr

/-- Observable summary of one loop iteration: how it ended, whether a
`DeleteReservedIP` call was issued for the fresh IP, whether the
backoff `waitInterval` ran, and the classification obtained (if the
classify call was reached and succeeded). -/
structure AttemptTrace where
  outcome : AttemptOutcome
  deleteIssued : Bool
  waitedInterval : Bool
  classified : Option IPInfo
  deriving DecidableEq, Repr

/-- One iteration of the `runAutoApplyTask` loop body: cancellation
check, create, wait-ready, classify, match, and delete-or-finish, with
every error branch falling through to the backoff wait. A failed
delete is only logged (`o.deleteFails` does not change the trace). -/
def runAutoApplyAttempt (s : BotState) (config : AutoApplyConfig) (attempt : Nat)
    (o : AttemptOracle) : AttemptTrace × BotState × List Effect :=
  if o.cancelled then
    (⟨.cancelled, false, false, none⟩, s, [])
  else
    match o.createResult with
    | none => (⟨.retry, false, true, none⟩, s, [])
    | some _ =>
        match o.waitReadyResult with
        | none => (⟨.retry, false, true, none⟩, s, [])
        | some publicIP =>
            match o.checkResult with
            | none =>
                (⟨.retry, false, true, none⟩, s, [])
            | some info =>
                if checkIPMatch info config then
                  (⟨.matched, false, false, some info⟩,
                   { s with
                      purityCache := (publicIP.IPAddress,
                        { PurityScore := info.PurityScore, IPType := info.IPType,
                          IsNative := info.IsNative }) :: s.purityCache,
                      autoApply := none },
                   [Effect.reply config.ChatID
                      ("🎉 *找到符合条件的IP!*\n\n📊 *纯净度:* " ++ info.PurityScore ++
                        " (" ++ info.PurityLevel ++ ")\n🏢 *类型:* " ++ info.IPType ++
                        "\n🌐 *来源:* " ++ info.IsNative ++ "\n🔢 *尝试次数:* " ++
                        toString attempt)])
                else
                  (⟨.retry, true, true, some info⟩, s, [Effect.deleteIP publicIP.ID])

/-! ### Shared lemmas and concrete fixtures -/

/-- `checkIPMatch` unfolded to its branch structure. -/
theorem checkIPMatch_eq (info : IPInfo) (config : AutoApplyConfig) :
    checkIPMatch info config =
      if config.MatchMode == "all" then
        (decide (parsePurity info.PurityScore ≤ config.PurityThreshold) &&
          (config.NativeRequired == "any" || info.IsNative == config.NativeRequired))
      else
        (decide (parsePurity info.PurityScore ≤ config.PurityThreshold) ||
          (config.NativeRequired == "any" || info.IsNative == config.NativeRequired)) := rfl

/-- A configuration with the unlimited purity threshold (100), no
origin requirement, match mode `all` and a fixed 30-60s interval. -/
def cfgUnlimited : AutoApplyConfig :=
  { AccountName := "acct1"
    PurityThreshold := 100
    NativeRequired := "any"
    MatchMode := "all"
    IntervalMin := 30
    IntervalMax := 60
    Active := false
    CancelSet := false
    ChatID := 9 }

/-- A classification whose purity-score string does not parse. -/
def infoUnparsable : IPInfo :=
  { IPAddress := "1.2.3.4"
    PurityScore := "N/A"
    PurityLevel := ""
    IPType := "机房IP"
    IsNative := "原生IP" }

/-! ### C1 -/

/-- C1: for every classification and policy, `checkIPMatch` returns
`purityOK AND originOK` when the match mode is `all` and
`purityOK OR originOK` when it is `any`, where `purityOK` is the parsed
score compared against the threshold and `originOK` is the origin
requirement being `any` or matched literally; the equation holds for
all values, hence over all four boolean combinations of the two
operands. -/
theorem c1_match_truth_table (info : IPInfo) (config : AutoApplyConfig) :
    (config.MatchMode = "all" →
      checkIPMatch info config =
        (decide (parsePurity info.PurityScore ≤ config.PurityThreshold) &&
          (config.NativeRequired == "any" || info.IsNative == config.NativeRequired))) ∧
    (config.MatchMode = "any" →
      checkIPMatch info config =
        (decide (parsePurity info.PurityScore ≤ config.PurityThreshold) ||
          (config.NativeRequired == "any" || info.IsNative == config.NativeRequired))) := by
  constructor <;> intro h <;> rw [checkIPMatch_eq, h] <;> rfl

/-- Witness for C1 at a concrete policy of each mode. -/
theorem c1_truth_table_witness :
    checkIPMatch infoUnparsable cfgUnlimited =
      (decide (parsePurity infoUnparsable.PurityScore ≤ cfgUnlimited.PurityThreshold) &&
        (cfgUnlimited.NativeRequired == "any" ||
          infoUnparsable.IsNative == cfgUnlimited.NativeRequired)) :=
  (c1_match_truth_table infoUnparsable cfgUnlimited).1 rfl

/-! ### C2 -/

/-- C2 counterexample: the score string `"N/A"` does not parse, yet
under the unlimited threshold 100 the defaulted worst score 100
satisfies `purityOK` (100 <= 100), and with origin requirement `any`
and match mode `all` the classification matches — contradicting the
claim that an unparsable score never satisfies `purityOK` and never
matches under mode `all`, including at threshold 100. -/
theorem c2_counterexample :
    atoi? (trimPercent infoUnparsable.PurityScore) = none ∧
    cfgUnlimited.MatchMode = "all" ∧ cfgUnlimited.PurityThreshold = 100 ∧
    checkIPMatch infoUnparsable cfgUnlimited = true := by
  refine ⟨rfl, rfl, rfl, rfl⟩

/-- C2 amended: an unparsable purity score is treated as the worst
score 100; it fails `purityOK`, and under match mode `all` the
classification never matches, exactly when the configured threshold is
below 100 — at the unlimited threshold 100 the defaulted score passes
`purityOK`. -/
theorem c2_amended_no_match_below_unlimited (info : IPInfo) (config : AutoApplyConfig)
    (hparse : atoi? (trimPercent info.PurityScore) = none)
    (hthr : config.PurityThreshold < 100)
    (hmode : config.MatchMode = "all") :
    parsePurity info.PurityScore = 100 ∧ checkIPMatch info config = false := by
  have hp : parsePurity info.PurityScore = 100 := by
    unfold parsePurity
    rw [hparse]
  refine ⟨hp, ?_⟩
  rw [checkIPMatch_eq, hmode, hp]
  have : ¬ ((100 : Int) ≤ config.PurityThreshold) := by omega
  simp [this]

/-- Witness for C2's amended theorem at threshold 50. -/
theorem c2_amended_witness :
    parsePurity infoUnparsable.PurityScore = 100 ∧
    checkIPMatch infoUnparsable { cfgUnlimited with PurityThreshold := 50 } = false :=
  c2_amended_no_match_below_unlimited infoUnparsable
    { cfgUnlimited with PurityThreshold := 50 } rfl (by decide) rfl

/-! ### C3 -/

/-- C3: matching is monotone in the score threshold — for the same
classification, origin requirement and match mode, raising the
threshold from `t1` to `t2 ≥ t1` preserves a positive match. -/
theorem c3_threshold_monotone (info : IPInfo) (config : AutoApplyConfig) (t1 t2 : Int)
    (h12 : t1 ≤ t2)
    (hmatch : checkIPMatch info { config with PurityThreshold := t1 } = true) :
    checkIPMatch info { config with PurityThreshold := t2 } = true := by
  rw [checkIPMatch_eq] at hmatch ⊢
  simp only at hmatch ⊢
  have hmono : decide (parsePurity info.PurityScore ≤ t1) = true →
      decide (parsePurity info.PurityScore ≤ t2) = true := by
    intro h
    exact decide_eq_true (le_trans (of_decide_eq_true h) h12)
  by_cases hm : (config.MatchMode == "all") = true
  · rw [if_pos hm] at hmatch ⊢
    rcases Bool.and_eq_true .. |>.mp hmatch with ⟨h1, h2⟩
    exact Bool.and_eq_true .. |>.mpr ⟨hmono h1, h2⟩
  · rw [if_neg hm] at hmatch ⊢
    rcases Bool.or_eq_true .. |>.mp hmatch with h1 | h2
    · exact Bool.or_eq_true .. |>.mpr (Or.inl (hmono h1))
    · exact Bool.or_eq_true .. |>.mpr (Or.inr h2)

/-- Witness for C3: a 15%-score IP matching at threshold 20 still
matches at threshold 50. -/
theorem c3_monotone_witness :
    checkIPMatch { infoUnparsable with PurityScore := "15%" }
      { cfgUnlimited with PurityThreshold := 50 } = true :=
  c3_threshold_monotone { infoUnparsable with PurityScore := "15%" } cfgUnlimited 20 50
    (by decide) (by decide)

/-! ### C5 -/

/-- C5: while an auto-apply task is active, `/autoip` replies with the
running-task warning and leaves the whole session state — including the
active `AutoApplyConfig` and the wizard slot — unchanged. -/
theorem c5_autoip_rejected_when_active (s : BotState) (chatID : Int)
    (config : AutoApplyConfig) (h : s.autoApply = some config)
    (ha : config.Active = true) :
    startAutoIPWizard s chatID =
      (s, [Effect.reply chatID "⚠️ 自动刷IP任务正在运行中\n使用 /stopauto 停止当前任务"]) := by
  unfold startAutoIPWizard
  rw [h]
  dsimp only
  rw [ha]
  rfl

/-- Witness for C5 at a concrete active task. -/
theorem c5_reject_witness :
    startAutoIPWizard
      { clients := ["acct1"], currentClient := "acct1", purityCache := [],
        autoApply := some { cfgUnlimited with Active := true }, autoWizard := none } 9 =
      ({ clients := ["acct1"], currentClient := "acct1", purityCache := [],
         autoApply := some { cfgUnlimited with Active := true }, autoWizard := none },
       [Effect.reply 9 "⚠️ 自动刷IP任务正在运行中\n使用 /stopauto 停止当前任务"]) :=
  c5_autoip_rejected_when_active _ 9 { cfgUnlimited with Active := true } rfl rfl

/-! ### C9 -/

/-- C9: for any interval configuration with `IntervalMin ≤ IntervalMax`
the sampler returns a value in the inclusive range, and the degenerate
`IntervalMin = IntervalMax` case always returns that constant. -/
theorem c9_interval_in_range (config : AutoApplyConfig) (seed : Nat)
    (h : config.IntervalMin ≤ config.IntervalMax) :
    ∃ v, waitIntervalValue config seed = some v ∧
      config.IntervalMin ≤ v ∧ v ≤ config.IntervalMax ∧
      (config.IntervalMin = config.IntervalMax → v = config.IntervalMin) := by
  unfold waitIntervalValue randIntn
  by_cases hlt : config.IntervalMax > config.IntervalMin
  · have hpos : (0 : Int) < config.IntervalMax - config.IntervalMin + 1 := by omega
    have htn : ((config.IntervalMax - config.IntervalMin + 1).toNat : Int) =
        config.IntervalMax - config.IntervalMin + 1 := Int.toNat_of_nonneg (by omega)
    have hmod : seed % (config.IntervalMax - config.IntervalMin + 1).toNat <
        (config.IntervalMax - config.IntervalMin + 1).toNat := by
      apply Nat.mod_lt
      omega
    refine ⟨config.IntervalMin +
      ((seed % (config.IntervalMax - config.IntervalMin + 1).toNat : Nat) : Int), ?_, ?_, ?_, ?_⟩
    · simp [hlt, hpos]
    · have : (0 : Int) ≤ ((seed % (config.IntervalMax - config.IntervalMin + 1).toNat : Nat) : Int) :=
        Int.natCast_nonneg _
      omega
    · have : ((seed % (config.IntervalMax - config.IntervalMin + 1).toNat : Nat) : Int) <
          config.IntervalMax - config.IntervalMin + 1 := by
        calc ((seed % (config.IntervalMax - config.IntervalMin + 1).toNat : Nat) : Int)
            < ((config.IntervalMax - config.IntervalMin + 1).toNat : Int) := by
              exact_mod_cast hmod
          _ = config.IntervalMax - config.IntervalMin + 1 := htn
      omega
    · intro heq
      omega
  · refine ⟨config.IntervalMin, ?_, le_refl _, by omega, fun _ => rfl⟩
    simp [hlt]

/-- Witness for C9 at the 30-60s configuration. -/
theorem c9_range_witness :
    ∃ v, waitIntervalValue cfgUnlimited 47 = some v ∧
      cfgUnlimited.IntervalMin ≤ v ∧ v ≤ cfgUnlimited.IntervalMax ∧
      (cfgUnlimited.IntervalMin = cfgUnlimited.IntervalMax → v = cfgUnlimited.IntervalMin) :=
  c9_interval_in_range cfgUnlimited 47 (by decide)

/-! ### C10 -/

/-- C10: the backoff-interval computation is total for every interval
configuration: the `rand.Intn` branch is taken only when
`IntervalMax > IntervalMin`, in which case its argument
`IntervalMax - IntervalMin + 1` is positive (so `rand.Intn` cannot
panic), and otherwise `IntervalMin` is returned. -/
theorem c10_interval_total (config : AutoApplyConfig) (seed : Nat) :
    (waitIntervalValue config seed).isSome = true ∧
    (config.IntervalMax > config.IntervalMin →
      (0 : Int) < config.IntervalMax - config.IntervalMin + 1) ∧
    (config.IntervalMax ≤ config.IntervalMin →
      waitIntervalValue config seed = some config.IntervalMin) := by
  refine ⟨?_, fun hlt => by omega, fun hle => ?_⟩
  · unfold waitIntervalValue randIntn
    by_cases hlt : config.IntervalMax > config.IntervalMin
    · have hpos : (0 : Int) < config.IntervalMax - config.IntervalMin + 1 := by omega
      simp [hlt, hpos]
    · simp [hlt]
  · unfold waitIntervalValue
    have : ¬ (config.IntervalMax > config.IntervalMin) := by omega
    simp [this]

/-- Witness for C10 with `IntervalMax < IntervalMin` (out of grammar). -/
theorem c10_total_witness :
    (waitIntervalValue { cfgUnlimited with IntervalMin := 60, IntervalMax := 30 } 5).isSome = true ∧
    ({ cfgUnlimited with IntervalMin := 60, IntervalMax := 30 } : AutoApplyConfig).IntervalMax ≤ 60 ∧
    waitIntervalValue { cfgUnlimited with IntervalMin := 60, IntervalMax := 30 } 5 = some 60 := by
  have h := c10_interval_total { cfgUnlimited with IntervalMin := 60, IntervalMax := 30 } 5
  exact ⟨h.1, by decide, h.2.2 (by decide)⟩

/-! ### C4 -/

/-- C4: in every controller attempt whose `CreateReservedIP` call
succeeds (and that was not cancelled), a `DeleteReservedIP` call for
the fresh IP is issued if and only if the classification call was
reached and succeeded and `checkIPMatch` returned false; on a
classification error no delete is issued and the loop backoff-waits
into the next attempt; and whenever a delete is issued the iteration
ends in a retry with the backoff wait, independently of whether the
delete call itself fails (a failure is only logged). -/
theorem c4_delete_iff_mismatch (s : BotState) (config : AutoApplyConfig)
    (attempt : Nat) (o : AttemptOracle) (ip : PublicIP)
    (hc : o.cancelled = false) (hcr : o.createResult = some ip) :
    ((runAutoApplyAttempt s config attempt o).1.deleteIssued = true ↔
      (∃ info, (runAutoApplyAttempt s config attempt o).1.classified = some info ∧
        checkIPMatch info config = false)) ∧
    (o.waitReadyResult.isSome = true → o.checkResult = none →
      (runAutoApplyAttempt s config attempt o).1.deleteIssued = false ∧
      (runAutoApplyAttempt s config attempt o).1.outcome = AttemptOutcome.retry ∧
      (runAutoApplyAttempt s config attempt o).1.waitedInterval = true) ∧
    ((runAutoApplyAttempt s config attempt o).1.deleteIssued = true →
      (runAutoApplyAttempt s config attempt o).1.outcome = AttemptOutcome.retry ∧
      (runAutoApplyAttempt s config attempt o).1.waitedInterval = true) := by
  unfold runAutoApplyAttempt
  rw [hc, hcr]
  dsimp only
  cases hw : o.waitReadyResult with
  | none => simp
  | some publicIP =>
      cases hcheck : o.checkResult with
      | none => simp
      | some info =>
          by_cases hm : checkIPMatch info config = true
          · simp [hm]
          · rw [Bool.not_eq_true] at hm
            simp [hm]

/-- Witness for C4: a concrete mismatching attempt (score 30% against
threshold 20, mode `all`) issues the delete and retries. -/
theorem c4_delete_witness :
    (((runAutoApplyAttempt
        { clients := ["acct1"], currentClient := "acct1", purityCache := [],
          autoApply := some { cfgUnlimited with PurityThreshold := 20 }, autoWizard := none }
        { cfgUnlimited with PurityThreshold := 20 } 1
        { cancelled := false,
          createResult := some { ID := "ocid1", IPAddress := "1.2.3.4" },
          waitReadyResult := some { ID := "ocid1", IPAddress := "1.2.3.4" },
          checkResult := some { infoUnparsable with PurityScore := "30%" },
          deleteFails := true }).1.deleteIssued = true) ↔
      (∃ info, (runAutoApplyAttempt
        { clients := ["acct1"], currentClient := "acct1", purityCache := [],
          autoApply := some { cfgUnlimited with PurityThreshold := 20 }, autoWizard := none }
        { cfgUnlimited with PurityThreshold := 20 } 1
        { cancelled := false,
          createResult := some { ID := "ocid1", IPAddress := "1.2.3.4" },
          waitReadyResult := some { ID := "ocid1", IPAddress := "1.2.3.4" },
          checkResult := some { infoUnparsable with PurityScore := "30%" },
          deleteFails := true }).1.classified = some info ∧
        checkIPMatch info { cfgUnlimited with PurityThreshold := 20 } = false)) :=
  (c4_delete_iff_mismatch _ _ 1 _ { ID := "ocid1", IPAddress := "1.2.3.4" } rfl rfl).1

/-! ### C6 and C7 fixtures -/

/-- An external oracle for callback paths that never reach the OCI
client (empty IP list, no deletions, no randomness). -/
def oracleEmpty : ExtOracle :=
  { listResult := .ok [], deleteErrors := [], seeds := [] }

/-- A session with no wizard and no task. -/
def s0Fresh : BotState :=
  { clients := ["acct1", "acct2"], currentClient := "acct1", purityCache := [],
    autoApply := none, autoWizard := none }

/-- A wizard that has reached the interval step (step 5). -/
def w5Fixture : AutoApplyWizard :=
  { Step := 5, AccountName := "acct1", PurityThreshold := 20,
    NativeRequired := "原生IP", MatchMode := "all", ChatID := 9 }

/-- A session whose wizard sits at step 5. -/
def s5Fixture : BotState :=
  { clients := ["acct1", "acct2"], currentClient := "acct1", purityCache := [],
    autoApply := none, autoWizard := some w5Fixture }

/-! ### C6 -/

/-- C6 counterexample: start a wizard, advance it to step 2 with an
account pick (so its purity keyboard `autoip:purity:*` is live), then
supersede it with a second `/autoip` (new wizard at step 1, which has
never shown a purity keyboard). The stale purity callback from the
first session is then not rejected: it is applied to the current
session, overwriting its threshold and jumping it to step 3 —
contradicting the claim that callbacks of a superseded session are
rejected with no state change. -/
theorem c6_counterexample :
    ((startAutoIPWizard
        (handleAutoIPCallback (startAutoIPWizard s0Fresh 9).1 9
          ["autoip", "account", "acct1"] oracleEmpty).1 9).1.autoWizard =
      some (newWizard 9)) ∧
    ((handleAutoIPCallback
        (startAutoIPWizard
          (handleAutoIPCallback (startAutoIPWizard s0Fresh 9).1 9
            ["autoip", "account", "acct1"] oracleEmpty).1 9).1 9
        ["autoip", "purity", "50"] oracleEmpty).1 ≠
      (startAutoIPWizard
        (handleAutoIPCallback (startAutoIPWizard s0Fresh 9).1 9
          ["autoip", "account", "acct1"] oracleEmpty).1 9).1) ∧
    ((handleAutoIPCallback
        (startAutoIPWizard
          (handleAutoIPCallback (startAutoIPWizard s0Fresh 9).1 9
            ["autoip", "account", "acct1"] oracleEmpty).1 9).1 9
        ["autoip", "purity", "50"] oracleEmpty).1.autoWizard =
      some { Step := 3, AccountName := "", PurityThreshold := 50,
             NativeRequired := "", MatchMode := "", ChatID := 9 }) := by
  refine ⟨rfl, ?_, rfl⟩
  decide

/-- C6 amended: the code carries no session identity in callback data,
so only the absence of any wizard session is detectable: a wizard
callback with no active session is rejected with a hint and no state
change, while a callback from a superseded session is applied to the
current session exactly as a current one would be (shown for the
purity sub-action, which overwrites the threshold and sets step 3
whatever session its keyboard came from). -/
theorem c6_amended_no_session_reject (s : BotState) (chatID : Int)
    (parts : List String) (o : ExtOracle) (v : String) (w : AutoApplyWizard) :
    (s.autoWizard = none →
      handleAutoIPCallback s chatID parts o =
        (s, [Effect.reply chatID "⚠️ 请先使用 /autoip 开始配置"])) ∧
    (s.autoWizard = some w →
      (handleAutoIPCallback s chatID ["autoip", "purity", v] o).1.autoWizard =
        some { w with PurityThreshold := (atoi? v).getD 0, Step := 3 }) := by
  constructor
  · intro h
    unfold handleAutoIPCallback
    rw [h]
  · intro h
    unfold handleAutoIPCallback
    rw [h]
    simp [List.getD]

/-- Witness for C6's amended theorem: both a rejected no-session
callback and an applied stale callback at concrete inputs. -/
theorem c6_amended_witness :
    (handleAutoIPCallback s0Fresh 9 ["autoip", "purity", "50"] oracleEmpty =
      (s0Fresh, [Effect.reply 9 "⚠️ 请先使用 /autoip 开始配置"])) ∧
    ((handleAutoIPCallback s5Fixture 9 ["autoip", "purity", "50"] oracleEmpty).1.autoWizard =
      some { w5Fixture with PurityThreshold := (atoi? "50").getD 0, Step := 3 }) :=
  ⟨(c6_amended_no_session_reject s0Fresh 9 ["autoip", "purity", "50"] oracleEmpty "50"
      w5Fixture).1 rfl,
   (c6_amended_no_session_reject s5Fixture 9 ["autoip", "purity", "50"] oracleEmpty "50"
      w5Fixture).2 rfl⟩

/-! ### C7 -/

/-- C7 counterexample: a wizard sitting at step 5 accepts an `account`
callback (a stale step-1 button press), which moves it back to step 2 —
the step ordinal decreases within a single session, contradicting the
claim that each state accepts only its own event and the step never
decreases. -/
theorem c7_counterexample :
    w5Fixture.Step = 5 ∧
    ((handleAutoIPCallback s5Fixture 9 ["autoip", "account", "acct2"] oracleEmpty).1.autoWizard =
      some { w5Fixture with AccountName := "acct2", Step := 2 }) ∧
    ((2 : Int) < 5) := by
  refine ⟨rfl, ?_, by decide⟩
  decide

/-- C7 amended: wizard callbacks are not filtered by the current step;
each sub-action writes its policy field and sets the step to a fixed
successor (`account` to 2, `purity` to 3, `native` to 4, `mode` to 5)
regardless of the step the session is in, so pressing buttons in the
intended order advances the step by one each time, but a stale earlier
button moves the session to an earlier step. -/
theorem c7_amended_fixed_successor (s : BotState) (chatID : Int)
    (w : AutoApplyWizard) (v : String) (o : ExtOracle)
    (h : s.autoWizard = some w) :
    ((handleAutoIPCallback s chatID ["autoip", "account", v] o).1.autoWizard =
        some { w with AccountName := v, Step := 2 }) ∧
    ((handleAutoIPCallback s chatID ["autoip", "purity", v] o).1.autoWizard =
        some { w with PurityThreshold := (atoi? v).getD 0, Step := 3 }) ∧
    ((handleAutoIPCallback s chatID ["autoip", "native", v] o).1.autoWizard =
        some { w with NativeRequired := v, Step := 4 }) ∧
    ((handleAutoIPCallback s chatID ["autoip", "mode", v] o).1.autoWizard =
        some { w with MatchMode := v, Step := 5 }) := by
  refine ⟨?_, ?_, ?_, ?_⟩ <;>
    (unfold handleAutoIPCallback; rw [h]; simp [List.getD])

/-- Witness for C7's amended theorem on the step-5 fixture. -/
theorem c7_amended_witness :
    (handleAutoIPCallback s5Fixture 9 ["autoip", "mode", "any"] oracleEmpty).1.autoWizard =
      some { w5Fixture with MatchMode := "any", Step := 5 } :=
  (c7_amended_fixed_successor s5Fixture 9 w5Fixture "any" oracleEmpty rfl).2.2.2

/-! ### C8 -/

/-- Any list starts with itself followed by a tail. -/
theorem listStarts_append (ns tail : List Char) : listStarts ns (ns ++ tail) = true := by
  induction ns with
  | nil => rfl
  | cons a as ih => simp [listStarts, ih]

/-- If `ns` starts `post` then `ns` occurs in `pre ++ post`. -/
theorem listContainsSub_of_suffix (pre post ns : List Char)
    (h : listStarts ns post = true) : listContainsSub ns (pre ++ post) = true := by
  induction pre with
  | nil =>
      cases post with
      | nil => simpa [listContainsSub] using h
      | cons c t => simp [listContainsSub, h]
  | cons a t ih => simp [listContainsSub, ih]

/-- A string contains any of its suffixes: in particular the
parse-error reply built as `messageStart ++ token` names the token. -/
theorem strContainsSub_append_right (a b : String) : strContainsSub (a ++ b) b = true := by
  unfold strContainsSub
  rw [String.data_append]
  exact listContainsSub_of_suffix a.data b.data b.data
    (by simpa using listStarts_append b.data [])

/-- `intervalAccept` on an interval meeting the floor: step 6 is set
and the confirmation stores the config. -/
theorem intervalAccept_accept (s : BotState) (chatID mn mx : Int) (w : AutoApplyWizard)
    (h : s.autoWizard = some w) (hge : 10 ≤ mn) :
    intervalAccept s chatID mn mx =
      ({ s with autoWizard := some { w with Step := 6 },
                autoApply := some (configFromWizard { w with Step := 6 } chatID mn mx) },
       [Effect.reply chatID (confirmText { w with Step := 6 } mn mx)]) := by
  unfold intervalAccept
  rw [if_neg (by omega : ¬ mn < 10), h]
  dsimp only
  unfold showConfirmation
  rfl

/-- `intervalAccept` below the floor: fixed rejection, no state change. -/
theorem intervalAccept_reject (s : BotState) (chatID mn mx : Int) (hlt : mn < 10) :
    intervalAccept s chatID mn mx = (s, [Effect.reply chatID "❌ 间隔时间不能小于10秒"]) := by
  unfold intervalAccept
  rw [if_pos hlt]

/-- C8 counterexample: the input `"5"` is rejected (below the
10-second floor) with the wizard state unchanged, as the claim says,
but the error reply is the fixed floor message, which does not name
(contain) the offending token `"5"` — contradicting the claim that
every rejection carries an error message naming the offending token. -/
theorem c8_counterexample :
    handleIntervalInput s5Fixture 9 "5" =
      (s5Fixture, [Effect.reply 9 "❌ 间隔时间不能小于10秒"]) ∧
    strContainsSub "❌ 间隔时间不能小于10秒" "5" = false := by
  refine ⟨?_, by decide⟩
  decide

/-- C8 amended: with a wizard session present, the interval parser maps
a single integer `N` to `min = max = N` and a range `N-M` to
`min(N, M), max(N, M)` (silently swapping when `N > M`), storing the
interval and moving the wizard to the confirm step; it rejects the
input — leaving the session state unchanged, the wizard still in the
interval state with no interval stored — exactly when a token fails to
parse as an integer or the resulting minimum is below 10 seconds;
parse failures are reported with an error message naming the offending
token, while the below-floor rejection replies with a fixed floor
message that does not include the token. -/
theorem c8_amended_interval_parse (s : BotState) (chatID : Int) (w : AutoApplyWizard)
    (h : s.autoWizard = some w) :
    (∀ text n, strContainsSub (trimSpace text) "-" = false →
      atoi? (trimSpace text) = some n → 10 ≤ n →
      handleIntervalInput s chatID text =
        ({ s with autoWizard := some { w with Step := 6 },
                  autoApply := some (configFromWizard { w with Step := 6 } chatID n n) },
         [Effect.reply chatID (confirmText { w with Step := 6 } n n)])) ∧
    (∀ text, strContainsSub (trimSpace text) "-" = false →
      atoi? (trimSpace text) = none →
      handleIntervalInput s chatID text =
        (s, [Effect.reply chatID ("❌ 无效的数字: " ++ trimSpace text)]) ∧
      strContainsSub ("❌ 无效的数字: " ++ trimSpace text) (trimSpace text) = true) ∧
    (∀ text n, strContainsSub (trimSpace text) "-" = false →
      atoi? (trimSpace text) = some n → n < 10 →
      handleIntervalInput s chatID text =
        (s, [Effect.reply chatID "❌ 间隔时间不能小于10秒"])) ∧
    (∀ text p q n m, strContainsSub (trimSpace text) "-" = true →
      splitDash (trimSpace text) = [p, q] →
      atoi? (trimSpace p) = some n → atoi? (trimSpace q) = some m →
      10 ≤ min n m →
      handleIntervalInput s chatID text =
        ({ s with autoWizard := some { w with Step := 6 },
                  autoApply := some (configFromWizard { w with Step := 6 } chatID
                    (min n m) (max n m)) },
         [Effect.reply chatID (confirmText { w with Step := 6 } (min n m) (max n m))])) ∧
    (∀ text p q, strContainsSub (trimSpace text) "-" = true →
      splitDash (trimSpace text) = [p, q] →
      atoi? (trimSpace p) = none →
      handleIntervalInput s chatID text =
        (s, [Effect.reply chatID ("❌ 无效的数字: " ++ p)]) ∧
      strContainsSub ("❌ 无效的数字: " ++ p) p = true) ∧
    (∀ text p q n, strContainsSub (trimSpace text) "-" = true →
      splitDash (trimSpace text) = [p, q] →
      atoi? (trimSpace p) = some n → atoi? (trimSpace q) = none →
      handleIntervalInput s chatID text =
        (s, [Effect.reply chatID ("❌ 无效的数字: " ++ q)]) ∧
      strContainsSub ("❌ 无效的数字: " ++ q) q = true) ∧
    (∀ text p q n m, strContainsSub (trimSpace text) "-" = true →
      splitDash (trimSpace text) = [p, q] →
      atoi? (trimSpace p) = some n → atoi? (trimSpace q) = some m →
      min n m < 10 →
      handleIntervalInput s chatID text =
        (s, [Effect.reply chatID "❌ 间隔时间不能小于10秒"])) := by
  refine ⟨?_, ?_, ?_, ?_, ?_, ?_, ?_⟩
  · intro text n hdash hat hge
    unfold handleIntervalInput
    simp only [hdash, Bool.false_eq_true, if_false, hat]
    exact intervalAccept_accept s chatID n n w h hge
  · intro text hdash hat
    refine ⟨?_, strContainsSub_append_right _ _⟩
    unfold handleIntervalInput
    simp only [hdash, Bool.false_eq_true, if_false, hat]
  · intro text n hdash hat hlt
    unfold handleIntervalInput
    simp only [hdash, Bool.false_eq_true, if_false, hat]
    exact intervalAccept_reject s chatID n n hlt
  · intro text p q n m hdash hsplit hp hq hmin
    unfold handleIntervalInput
    simp only [hdash, eq_self_iff_true, if_true, hsplit, hp, hq]
    rcases le_or_lt n m with hle | hlt
    · rw [if_neg (by omega : ¬ n > m), min_eq_left hle, max_eq_right hle]
      rw [min_eq_left hle] at hmin
      exact intervalAccept_accept s chatID n m w h hmin
    · rw [if_pos (by omega : n > m), min_eq_right (le_of_lt hlt), max_eq_left (le_of_lt hlt)]
      rw [min_eq_right (le_of_lt hlt)] at hmin
      exact intervalAccept_accept s chatID m n w h hmin
  · intro text p q hdash hsplit hp
    refine ⟨?_, strContainsSub_append_right _ _⟩
    unfold handleIntervalInput
    simp only [hdash, eq_self_iff_true, if_true, hsplit, hp]
  · intro text p q n hdash hsplit hp hq
    refine ⟨?_, strContainsSub_append_right _ _⟩
    unfold handleIntervalInput
    simp only [hdash, eq_self_iff_true, if_true, hsplit, hp, hq]
  · intro text p q n m hdash hsplit hp hq hmin
    unfold handleIntervalInput
    simp only [hdash, eq_self_iff_true, if_true, hsplit, hp, hq]
    rcases le_or_lt n m with hle | hlt
    · rw [if_neg (by omega : ¬ n > m)]
      rw [min_eq_left hle] at hmin
      exact intervalAccept_reject s chatID n m hmin
    · rw [if_pos (by omega : n > m)]
      rw [min_eq_right (le_of_lt hlt)] at hmin
      exact intervalAccept_reject s chatID m n hmin

/-- Witness for C8's amended theorem: the range `"200-300"` is stored
as min 200, max 300 with the wizard moved to the confirm step. -/
theorem c8_amended_witness :
    handleIntervalInput s5Fixture 9 "200-300" =
      ({ s5Fixture with autoWizard := some { w5Fixture with Step := 6 },
                        autoApply := some (configFromWizard { w5Fixture with Step := 6 } 9
                          (min (200 : Int) 300) (max (200 : Int) 300)) },
       [Effect.reply 9 (confirmText { w5Fixture with Step := 6 }
          (min (200 : Int) 300) (max (200 : Int) 300))]) :=
  (c8_amended_interval_parse s5Fixture 9 w5Fixture rfl).2.2.2.1 "200-300" "200" "300" 200 300
    (by decide) (by decide) (by decide) (by decide) (by decide)

end OciBot
